import Mathlib

/-!
Shallow embedding of `src/main.py` (DiscordTranslator): a Discord client whose
`on_message` handler detects the language of each message in one target
channel, translates non-English messages with DeepL, deletes the original, and
reposts the translation through a webhook under the author's identity.

External collaborators (googletrans detection, DeepL translation, attachment
HTTP fetches, Discord message deletion, webhook construction and send) are
modelled by a `World` of oracle results.  The handler is embedded as a pure
function from the configuration, the world and the inbound message to the
ordered list of external calls and log lines it performs (`Event`s), together
with its control outcome (normal return, or an uncaught exception propagating
out of the handler).

Module-level configuration (lines 8-31 of `src/main.py`) is embedded
separately: `startupExits` decides whether the `exit()` call on line 31 runs,
given the four environment values.
-/

/-- Author of an inbound message (`message.author` in `src/main.py`):
display name, bot flag, the avatar URL when an avatar is set (Discord's
`author.avatar` is `None` when unset, an always-truthy asset otherwise),
and the platform default avatar URL (`author.default_avatar.url`). -/
structure Author where
  displayName : String
  isBot : Bool
  avatarUrl : Option String
  defaultAvatarUrl : String
  deriving DecidableEq

/-- One attachment reference on a message (`attachment.url`,
`attachment.filename`). -/
structure Attachment where
  url : String
  filename : String
  deriving DecidableEq

/-- An inbound message (`message` in `on_message`): originating channel id,
author, text content, ordered attachment references. -/
structure Message where
  channelId : Int
  author : Author
  content : String
  attachments : List Attachment
  deriving DecidableEq

/-- A buffered attachment payload, modelling
`discord.File(io.BytesIO(file_content), filename=attachment.filename)`
(lines 86-89): raw bytes plus the original filename. -/
structure DFile where
  bytes : List Nat
  filename : String
  deriving DecidableEq

/-- The outbound webhook payload, modelling the keyword arguments of
`webhook.send` on lines 121-130: content, username, avatar URL, files. -/
structure Envelope where
  content : String
  username : String
  avatarUrl : String
  files : List DFile
  deriving DecidableEq

/-- One external call or log line performed by the handler, in order. -/
inductive Event where
  /-- `google_translator.detect(message.content)` (line 61). -/
  | detectCall (text : String)
  /-- `deepl_translator.translate_text(message.content, target_lang=...)`
  (lines 70-72). -/
  | translateCall (text : String) (targetLang : String)
  /-- `session.get(attachment.url)` (line 82). -/
  | fetchCall (url : String)
  /-- `message.delete()` (line 100). -/
  | deleteCall
  /-- `discord.Webhook.from_url(WEBHOOK_URL, session=session)` (line 111). -/
  | webhookCreate (url : String)
  /-- `webhook.send(...)` with the given payload (lines 121-130). -/
  | webhookSendCall (payload : Envelope)
  /-- A `print(...)` of an error or warning to the operator console. -/
  | logError (msg : String)
  deriving DecidableEq

/-- Result of the error handler of `on_message`: Python either returns
normally or lets an uncaught exception propagate out of the coroutine. -/
inductive Outcome where
  | returned
  | raised (msg : String)
  deriving DecidableEq

/-- An error raised by `deepl_translator.translate_text`.  Line 73 catches
exactly `deepl.DeepLException` (the base class of every error the DeepL
client raises); any other exception class would propagate. -/
inductive TransError where
  | deepLException (msg : String)
  | otherException (msg : String)
  deriving DecidableEq

/-- An error raised by `message.delete()`.  Lines 101-106 catch exactly
`discord.errors.Forbidden` and `discord.errors.NotFound`; any other
exception class would propagate. -/
inductive DeleteError where
  | forbidden
  | notFound
  | otherError (msg : String)
  deriving DecidableEq

/-- Result of one attachment HTTP fetch: either a response with a status
code and body bytes, or an exception raised during session setup, request
or body read (caught by the `except Exception` on line 95). -/
inductive FetchOutcome where
  | resp (status : Nat) (body : List Nat)
  | exn (msg : String)
  deriving DecidableEq

/-- Oracle results of the external services for one handler invocation:
detection result (language code or error message), translation result,
the fetch outcome of the attachment at each index, deletion result,
webhook-construction result, webhook-send result. -/
structure World where
  detect : Except String String
  translate : Except TransError String
  fetch : Nat → FetchOutcome
  delete : Except DeleteError Unit
  createWebhook : Except String Unit
  send : Except String Unit

/-- The avatar-URL expression of lines 124-128:
`message.author.avatar.url if message.author.avatar else
message.author.default_avatar.url`. -/
def authorAvatarUrl (a : Author) : String :=
  match a.avatarUrl with
  | some u => u
  | none => a.defaultAvatarUrl

/-- The attachment loop of lines 77-96: for the attachment list starting at
index `i`, fetch each attachment; on status 200 buffer the body under the
original filename, on any other status log and skip, on an exception log
and skip.  Returns the emitted events and the accumulated
`attachment_files` list. -/
def fetchAttachments (f : Nat → FetchOutcome) :
    List Attachment → Nat → List Event × List DFile
  | [], _ => ([], [])
  | att :: rest, i =>
    match f i with
    | .resp status body =>
      if status = 200 then
        (Event.fetchCall att.url :: (fetchAttachments f rest (i + 1)).1,
         ⟨body, att.filename⟩ :: (fetchAttachments f rest (i + 1)).2)
      else
        (Event.fetchCall att.url ::
           Event.logError ("Failed to download attachment: " ++ att.url ++
             " (Status: " ++ toString status ++ ")") ::
           (fetchAttachments f rest (i + 1)).1,
         (fetchAttachments f rest (i + 1)).2)
    | .exn msg =>
      (Event.fetchCall att.url ::
         Event.logError ("Error downloading attachment: " ++ msg) ::
         (fetchAttachments f rest (i + 1)).1,
       (fetchAttachments f rest (i + 1)).2)

/-- The `TranslationClient.on_message` handler (lines 50-132), as a pure
function of the configured target channel id, the webhook URL, the external
world and the inbound message.  Returns the ordered event list and the
control outcome. -/
def on_message (targetChannelId : Int) (webhookUrl : String)
    (w : World) (m : Message) : List Event × Outcome :=
  if m.channelId ≠ targetChannelId then
    ([], .returned)
  else if m.author.isBot then
    ([], .returned)
  else
    match w.detect with
    | .error e =>
      ([.detectCall m.content, .logError ("Error detecting language: " ++ e)],
       .returned)
    | .ok sourceLang =>
      if sourceLang ≠ "en" then
        match w.translate with
        | .error (.deepLException e) =>
          ([.detectCall m.content, .translateCall m.content "EN-US",
            .logError ("Error translating message: " ++ e)], .returned)
        | .error (.otherException e) =>
          ([.detectCall m.content, .translateCall m.content "EN-US"],
           .raised e)
        | .ok translatedText =>
          match w.delete with
          | .error .forbidden =>
            (Event.detectCall m.content :: Event.translateCall m.content "EN-US" ::
               (fetchAttachments w.fetch m.attachments 0).1 ++
               [Event.deleteCall,
                Event.logError "Bot lacks permission to delete the message."],
             .returned)
          | .error .notFound =>
            (Event.detectCall m.content :: Event.translateCall m.content "EN-US" ::
               (fetchAttachments w.fetch m.attachments 0).1 ++
               [Event.deleteCall,
                Event.logError "Message not found (already deleted?)"],
             .returned)
          | .error (.otherError e) =>
            (Event.detectCall m.content :: Event.translateCall m.content "EN-US" ::
               (fetchAttachments w.fetch m.attachments 0).1 ++ [Event.deleteCall],
             .raised e)
          | .ok _ =>
            match w.createWebhook with
            | .error e =>
              (Event.detectCall m.content :: Event.translateCall m.content "EN-US" ::
                 (fetchAttachments w.fetch m.attachments 0).1 ++
                 [Event.deleteCall, Event.webhookCreate webhookUrl,
                  Event.logError ("Error creating webhook: " ++ e)],
               .returned)
            | .ok _ =>
              match w.send with
              | .error e =>
                (Event.detectCall m.content :: Event.translateCall m.content "EN-US" ::
                   (fetchAttachments w.fetch m.attachments 0).1 ++
                   [Event.deleteCall, Event.webhookCreate webhookUrl,
                    Event.webhookSendCall
                      ⟨translatedText ++ "\n-# [Original] " ++ m.content,
                       m.author.displayName, authorAvatarUrl m.author,
                       (fetchAttachments w.fetch m.attachments 0).2⟩,
                    Event.logError ("Error sending webhook message: " ++ e)],
                 .returned)
              | .ok _ =>
                (Event.detectCall m.content :: Event.translateCall m.content "EN-US" ::
                   (fetchAttachments w.fetch m.attachments 0).1 ++
                   [Event.deleteCall, Event.webhookCreate webhookUrl,
                    Event.webhookSendCall
                      ⟨translatedText ++ "\n-# [Original] " ++ m.content,
                       m.author.displayName, authorAvatarUrl m.author,
                       (fetchAttachments w.fetch m.attachments 0).2⟩],
                 .returned)
      else
        ([.detectCall m.content], .returned)

/-! ## Startup configuration (lines 8-31 of `src/main.py`) -/

/-- Codepoints of the whitespace characters CPython 3.11 `int()` strips
around a numeric string (`Py_UNICODE_ISSPACE`): the set was obtained by
testing `int(chr(c) + "5")` and `int("5" + chr(c))` for every Unicode
codepoint on CPython 3.11.6. -/
def pySpaceCodes : List Nat :=
  [9, 10, 11, 12, 13, 32, 133, 160, 5760, 8192, 8193, 8194, 8195, 8196,
   8197, 8198, 8199, 8200, 8201, 8202, 8232, 8233, 8239, 8287, 12288]

/-- A whitespace character stripped by Python `int` around a numeric
string. -/
def isPySpace (c : Char) : Bool := pySpaceCodes.contains c.toNat

/-- Start codepoints of the 66 aligned runs of ten consecutive Unicode
decimal digits (digit values 0 through 9) accepted by CPython 3.11
`int()` (Unicode category Nd): obtained by testing `int(chr(c))` for
every Unicode codepoint on CPython 3.11.6; every accepted codepoint lies
in exactly one such run. -/
def pyDigitRangeStarts : List Nat :=
  [48, 1632, 1776, 1984, 2406, 2534, 2662, 2790, 2918, 3046, 3174, 3302,
   3430, 3558, 3664, 3792, 3872, 4160, 4240, 6112, 6160, 6470, 6608, 6784,
   6800, 6992, 7088, 7232, 7248, 42528, 43216, 43264, 43472, 43504, 43600,
   44016, 65296, 66720, 68912, 69734, 69872, 69942, 70096, 70384, 70736,
   70864, 71248, 71360, 71472, 71904, 72016, 72784, 73040, 73120, 92768,
   92864, 93008, 120782, 120792, 120802, 120812, 120822, 123200, 123632,
   125264, 130032]

/-- The decimal value of a Unicode digit accepted by Python `int`, `none`
for any other character. -/
def pyDigitVal (c : Char) : Option Nat :=
  pyDigitRangeStarts.findSome? fun r =>
    if r ≤ c.toNat && c.toNat ≤ r + 9 then some (c.toNat - r) else none

/-- A Unicode decimal digit, as accepted by Python `int`. -/
def isPyDigit (c : Char) : Bool := (pyDigitVal c).isSome

/-- Value of a list of Unicode decimal digits, skipping the PEP 515
underscore separators. -/
def digitsToNat (l : List Char) : Nat :=
  l.foldl (fun acc c =>
    if c = '_' then acc else acc * 10 + (pyDigitVal c).getD 0) 0

/-- Continuation of the PEP 515 digit grammar after one leading digit has
been read: each further character is a digit, and an underscore must be
followed directly by a digit. -/
def pyDigitsTail : List Char → Bool
  | [] => true
  | '_' :: c :: rest => isPyDigit c && pyDigitsTail rest
  | c :: rest => isPyDigit c && pyDigitsTail rest

/-- The digit part of a Python integer literal string (PEP 515): one or
more Unicode decimal digits with single underscores strictly between
digits (no leading or trailing underscore, no two in a row). -/
def pyDigits : List Char → Bool
  | [] => false
  | c :: rest => isPyDigit c && pyDigitsTail rest

/-- Python `int(s)` in base 10 (line 17): optional surrounding Unicode
whitespace, an optional ASCII sign, then one or more Unicode decimal
digits with single PEP 515 underscores between digits; `none` models a
`ValueError`.  Mirrors CPython 3.11.6, against which this definition was
cross-checked exhaustively per character and on a randomised corpus of
strings. -/
def pythonInt (s : String) : Option Int :=
  match ((s.toList.dropWhile isPySpace).reverse.dropWhile isPySpace).reverse with
  | [] => none
  | c :: rest =>
    if c = '+' then
      if pyDigits rest then some (digitsToNat rest : Int) else none
    else if c = '-' then
      if pyDigits rest then some (-(digitsToNat rest : Int)) else none
    else
      if pyDigits (c :: rest) then some (digitsToNat (c :: rest) : Int)
      else none

/-- The four environment values read at startup: `DISCORD_TOKEN`,
`WEBHOOK_URL`, `DEEPL_API_KEY`, `TARGET_CHANNEL_ID`; `none` when the
variable is unset (`os.environ.get`). -/
structure Env where
  discordToken : Option String
  webhookUrl : Option String
  deeplApiKey : Option String
  targetChannelId : Option String
  deriving DecidableEq

/-- `TARGET_CHANNEL_ID` after lines 16-23: `int(os.environ.get(..., 0))`,
with the `ValueError` handler substituting the default `0`. -/
def computeTargetChannelId (v : Option String) : Int :=
  match v with
  | none => 0
  | some s =>
    match pythonInt s with
    | some n => n
    | none => 0

/-- Python truthiness of an optional string: `None` and `""` are falsy. -/
def truthy (v : Option String) : Bool :=
  match v with
  | none => false
  | some s => !s.isEmpty

/-- The startup check of lines 26-31: `exit()` runs exactly when
`not all([TOKEN, WEBHOOK_URL, DEEPL_API_KEY, TARGET_CHANNEL_ID])`, where
the first three are truthy strings and the channel id is a nonzero
integer.  This decision is made before the client is constructed on line
135 and before `client.run` starts handling any message. -/
def startupExits (env : Env) : Bool :=
  !(truthy env.discordToken && truthy env.webhookUrl &&
    truthy env.deeplApiKey &&
    computeTargetChannelId env.targetChannelId != 0)

/-! ## Observation helpers over event traces -/

/-- The payloads of the webhook-send calls in a trace, in order. -/
def sentEnvelopes (evs : List Event) : List Envelope :=
  evs.filterMap fun e =>
    match e with
    | .webhookSendCall p => some p
    | _ => none

/-- Whether an event is the deletion call or a webhook-send call. -/
def isDelOrSend (e : Event) : Bool :=
  match e with
  | .deleteCall => true
  | .webhookSendCall _ => true
  | _ => false

/-- Whether an event is an attachment fetch call. -/
def isFetchCall (e : Event) : Bool :=
  match e with
  | .fetchCall _ => true
  | _ => false

/-- Whether an event is neither the deletion call, a webhook event, nor a
translate or detect call: the event kinds the attachment loop can emit. -/
def isFetchOrLog (e : Event) : Bool :=
  match e with
  | .fetchCall _ => true
  | .logError _ => true
  | _ => false

/-- Specification-side description of the payload list produced by the
attachment loop: the attachments whose fetch (at their own index) returned
status 200, buffered under their original filename, in original relative
order, with failures omitted. -/
def successfulFiles (f : Nat → FetchOutcome) :
    List Attachment → Nat → List DFile
  | [], _ => []
  | att :: rest, i =>
    match f i with
    | .resp status body =>
      if status = 200 then
        ⟨body, att.filename⟩ :: successfulFiles f rest (i + 1)
      else
        successfulFiles f rest (i + 1)
    | .exn _ => successfulFiles f rest (i + 1)

/-- The log line a failed fetch outcome produces for a given attachment
(`none` when the fetch succeeded): the two `print` calls on lines 92-94
and 96. -/
def fetchFailureLog (o : FetchOutcome) (att : Attachment) : Option Event :=
  match o with
  | .resp status _ =>
    if status = 200 then none
    else some (Event.logError ("Failed to download attachment: " ++ att.url ++
      " (Status: " ++ toString status ++ ")"))
  | .exn msg => some (Event.logError ("Error downloading attachment: " ++ msg))

/-! ## Concrete sample inputs used by the witness theorems -/

/-- A non-bot author with an avatar set. -/
def sampleAuthor : Author :=
  ⟨"Alice", false, some "https://cdn.example/avatars/alice.png",
   "https://cdn.example/embed/avatars/0.png"⟩

/-- The spec's scenario message: "Bonjour le monde" in channel 5, no
attachments. -/
def sampleMsg : Message := ⟨5, sampleAuthor, "Bonjour le monde", []⟩

/-- A world in which every external step succeeds and detection returns
`fr`. -/
def okWorld : World :=
  ⟨Except.ok "fr", Except.ok "Hello world", fun _ => FetchOutcome.resp 200 [],
   Except.ok (), Except.ok (), Except.ok ()⟩

/-- A world in which detection returns `en`. -/
def englishWorld : World :=
  ⟨Except.ok "en", Except.ok "Hello world", fun _ => FetchOutcome.resp 200 [],
   Except.ok (), Except.ok (), Except.ok ()⟩

/-- A world in which detection raises. -/
def detectFailWorld : World :=
  ⟨Except.error "Service unavailable", Except.ok "Hello world",
   fun _ => FetchOutcome.resp 200 [], Except.ok (), Except.ok (),
   Except.ok ()⟩

/-- A world in which the DeepL call raises a quota error. -/
def quotaWorld : World :=
  ⟨Except.ok "fr",
   Except.error (TransError.deepLException "Quota for this billing period has been exceeded."),
   fun _ => FetchOutcome.resp 200 [], Except.ok (), Except.ok (),
   Except.ok ()⟩

/-- A world in which deletion raises a permission error. -/
def forbiddenWorld : World :=
  ⟨Except.ok "fr", Except.ok "Hello world", fun _ => FetchOutcome.resp 200 [],
   Except.error DeleteError.forbidden, Except.ok (), Except.ok ()⟩

/-- First sample attachment. -/
def attA : Attachment := ⟨"https://cdn.example/a.png", "a.png"⟩

/-- Second sample attachment. -/
def attB : Attachment := ⟨"https://cdn.example/b.png", "b.png"⟩

/-- Fetch oracle for the two-attachment scenario: the first fetch succeeds
with body `[10, 20]`, the second returns HTTP 404. -/
def twoFetch : Nat → FetchOutcome := fun i =>
  if i = 0 then FetchOutcome.resp 200 [10, 20] else FetchOutcome.resp 404 []

/-! ## Helper lemmas about the attachment loop -/

/-- Every event emitted by the attachment loop is a fetch call or a log
line: the loop performs no deletion, no webhook call and no translation. -/
theorem fetch_events_kind (f : Nat → FetchOutcome) :
    ∀ (atts : List Attachment) (i : Nat) (ev : Event),
      ev ∈ (fetchAttachments f atts i).1 → isFetchOrLog ev = true := by
  intro atts
  induction atts with
  | nil => intro i ev h; simp [fetchAttachments] at h
  | cons att rest ih =>
    intro i ev h
    rcases hf : f i with ⟨status, body⟩ | msg
    · by_cases hs : status = 200
      · simp only [fetchAttachments, hf, if_pos hs] at h
        rcases List.mem_cons.mp h with rfl | h
        · rfl
        · exact ih (i + 1) ev h
      · simp only [fetchAttachments, hf, if_neg hs] at h
        rcases List.mem_cons.mp h with rfl | h
        · rfl
        · rcases List.mem_cons.mp h with rfl | h
          · rfl
          · exact ih (i + 1) ev h
    · simp only [fetchAttachments, hf] at h
      rcases List.mem_cons.mp h with rfl | h
      · rfl
      · rcases List.mem_cons.mp h with rfl | h
        · rfl
        · exact ih (i + 1) ev h

/-- The attachment loop never emits the deletion call. -/
theorem fetch_no_delete (f : Nat → FetchOutcome) (atts : List Attachment)
    (i : Nat) : Event.deleteCall ∉ (fetchAttachments f atts i).1 := by
  intro h
  have := fetch_events_kind f atts i _ h
  simp [isFetchOrLog] at this

/-- The attachment loop never emits a webhook-construction call. -/
theorem fetch_no_create (f : Nat → FetchOutcome) (atts : List Attachment)
    (i : Nat) (u : String) :
    Event.webhookCreate u ∉ (fetchAttachments f atts i).1 := by
  intro h
  have := fetch_events_kind f atts i _ h
  simp [isFetchOrLog] at this

/-- The attachment loop's trace counts zero deletion calls. -/
theorem fetch_count_delete (f : Nat → FetchOutcome) (atts : List Attachment)
    (i : Nat) : ((fetchAttachments f atts i).1).count Event.deleteCall = 0 :=
  List.count_eq_zero.mpr (fetch_no_delete f atts i)

/-- The attachment loop sends no webhook payload. -/
theorem fetch_sent_nil (f : Nat → FetchOutcome) (atts : List Attachment)
    (i : Nat) : sentEnvelopes (fetchAttachments f atts i).1 = [] := by
  rw [sentEnvelopes, List.filterMap_eq_nil_iff]
  intro ev h
  have := fetch_events_kind f atts i ev h
  cases ev <;> simp_all [isFetchOrLog]

/-- The attachment loop's trace has no deletion or send event. -/
theorem fetch_filter_delsend (f : Nat → FetchOutcome) (atts : List Attachment)
    (i : Nat) : ((fetchAttachments f atts i).1).filter isDelOrSend = [] := by
  rw [List.filter_eq_nil_iff]
  intro ev h
  have := fetch_events_kind f atts i ev h
  cases ev <;> simp_all [isFetchOrLog, isDelOrSend]

/-- The payload list built by the attachment loop is exactly the
successfully fetched payloads, in original relative order. -/
theorem fetch_files_eq (f : Nat → FetchOutcome) :
    ∀ (atts : List Attachment) (i : Nat),
      (fetchAttachments f atts i).2 = successfulFiles f atts i := by
  intro atts
  induction atts with
  | nil => intro i; rfl
  | cons att rest ih =>
    intro i
    rcases hf : f i with ⟨status, body⟩ | msg
    · by_cases hs : status = 200
      · simp [fetchAttachments, successfulFiles, hf, hs, ih]
      · simp [fetchAttachments, successfulFiles, hf, hs, ih]
    · simp [fetchAttachments, successfulFiles, hf, ih]

/-- Every attachment is fetched, in order, regardless of the outcomes of
the other fetches: a per-attachment failure never stops the loop. -/
theorem fetch_filter_fetchCall (f : Nat → FetchOutcome) :
    ∀ (atts : List Attachment) (i : Nat),
      ((fetchAttachments f atts i).1).filter isFetchCall =
        atts.map (fun a => Event.fetchCall a.url) := by
  intro atts
  induction atts with
  | nil => intro i; rfl
  | cons att rest ih =>
    intro i
    rcases hf : f i with ⟨status, body⟩ | msg
    · by_cases hs : status = 200
      · simp [fetchAttachments, hf, hs, ih, isFetchCall]
      · simp [fetchAttachments, hf, hs, ih, isFetchCall]
    · simp [fetchAttachments, hf, ih, isFetchCall]

/-- Every failed fetch leaves its log line in the loop's trace. -/
theorem fetch_failure_logged (f : Nat → FetchOutcome) :
    ∀ (atts : List Attachment) (i j : Nat) (hj : j < atts.length)
      (ev : Event),
      fetchFailureLog (f (i + j)) (atts.get ⟨j, hj⟩) = some ev →
      ev ∈ (fetchAttachments f atts i).1 := by
  intro atts
  induction atts with
  | nil => intro i j hj; simp at hj
  | cons att rest ih =>
    intro i j hj ev hlog
    cases j with
    | zero =>
      simp only [Nat.add_zero, List.get] at hlog
      rcases hf : f i with ⟨status, body⟩ | msg
      · rw [hf] at hlog
        simp only [fetchFailureLog] at hlog
        by_cases hs : status = 200
        · rw [if_pos hs] at hlog; cases hlog
        · rw [if_neg hs] at hlog
          obtain rfl : ev = _ := (Option.some.inj hlog).symm
          simp [fetchAttachments, hf, hs]
      · rw [hf] at hlog
        simp only [fetchFailureLog] at hlog
        obtain rfl : ev = _ := (Option.some.inj hlog).symm
        simp [fetchAttachments, hf]
    | succ j =>
      have hj2 : j < rest.length := Nat.lt_of_succ_lt_succ hj
      have hidx : i + (j + 1) = (i + 1) + j := by omega
      rw [hidx] at hlog
      simp only [List.get] at hlog
      have hmem := ih (i + 1) j hj2 ev hlog
      rcases hf : f i with ⟨status, body⟩ | msg
      · by_cases hs : status = 200
        · simp [fetchAttachments, hf, hs, hmem]
        · simp [fetchAttachments, hf, hs, hmem]
      · simp [fetchAttachments, hf, hmem]

/-! ## Reduction lemmas for `sentEnvelopes` -/

@[simp] theorem sentEnvelopes_nil : sentEnvelopes [] = [] := rfl

@[simp] theorem sentEnvelopes_detect (t : String) (l : List Event) :
    sentEnvelopes (Event.detectCall t :: l) = sentEnvelopes l := rfl

@[simp] theorem sentEnvelopes_translate (t tl : String) (l : List Event) :
    sentEnvelopes (Event.translateCall t tl :: l) = sentEnvelopes l := rfl

@[simp] theorem sentEnvelopes_fetch (u : String) (l : List Event) :
    sentEnvelopes (Event.fetchCall u :: l) = sentEnvelopes l := rfl

@[simp] theorem sentEnvelopes_delete (l : List Event) :
    sentEnvelopes (Event.deleteCall :: l) = sentEnvelopes l := rfl

@[simp] theorem sentEnvelopes_create (u : String) (l : List Event) :
    sentEnvelopes (Event.webhookCreate u :: l) = sentEnvelopes l := rfl

@[simp] theorem sentEnvelopes_log (s : String) (l : List Event) :
    sentEnvelopes (Event.logError s :: l) = sentEnvelopes l := rfl

@[simp] theorem sentEnvelopes_send (p : Envelope) (l : List Event) :
    sentEnvelopes (Event.webhookSendCall p :: l) = p :: sentEnvelopes l := rfl

@[simp] theorem sentEnvelopes_append (l1 l2 : List Event) :
    sentEnvelopes (l1 ++ l2) = sentEnvelopes l1 ++ sentEnvelopes l2 := by
  simp [sentEnvelopes]

/-! ## Claim theorems -/

/-- C5: for every inbound message whose channel identifier differs from the
configured target channel, or whose author is flagged as a bot (regardless
of channel), the handler performs no external call at all — no detection,
no translation, no deletion, no attachment fetch, no repost, and no log
output. -/
theorem off_target_or_bot_noop (tci : Int) (url : String) (w : World)
    (m : Message) (h : m.channelId ≠ tci ∨ m.author.isBot = true) :
    on_message tci url w m = ([], Outcome.returned) := by
  rcases h with h | h
  · simp [on_message, h]
  · by_cases hc : m.channelId = tci
    · simp [on_message, hc, h]
    · simp [on_message, hc]

/-- Witness for C5: a message in channel 6 while the target channel is 5
produces no event. -/
theorem off_target_or_bot_noop_witness :
    on_message 5 "https://hook.example" okWorld ⟨6, sampleAuthor, "Hola", []⟩ =
      ([], Outcome.returned) :=
  off_target_or_bot_noop 5 "https://hook.example" okWorld
    ⟨6, sampleAuthor, "Hola", []⟩ (Or.inl (by decide))

/-- C6: for every inbound message in the target channel from a non-bot
author, if language detection returns the English language code, the
handler terminates after the detection call with no further action — no
translation call, no deletion, no repost. -/
theorem english_message_untouched (tci : Int) (url : String) (w : World)
    (m : Message) (hch : m.channelId = tci) (hbot : m.author.isBot = false)
    (hdet : w.detect = Except.ok "en") :
    on_message tci url w m = ([Event.detectCall m.content], Outcome.returned) := by
  simp [on_message, hch, hbot, hdet]

/-- Witness for C6: an English message in the target channel yields only
the detection call. -/
theorem english_message_untouched_witness :
    on_message 5 "https://hook.example" englishWorld
        ⟨5, sampleAuthor, "Hello there", []⟩ =
      ([Event.detectCall "Hello there"], Outcome.returned) :=
  english_message_untouched 5 "https://hook.example" englishWorld
    ⟨5, sampleAuthor, "Hello there", []⟩ rfl rfl rfl

/-- C8: for every inbound message that reaches the detection step, if the
language-detection call fails with any error, the pipeline aborts with no
translation call, no deletion and no repost; the error is logged and the
handler returns normally (the error is swallowed, not surfaced to the
chat). -/
theorem detection_error_aborts (tci : Int) (url : String) (w : World)
    (m : Message) (e : String) (hch : m.channelId = tci)
    (hbot : m.author.isBot = false) (hdet : w.detect = Except.error e) :
    on_message tci url w m =
      ([Event.detectCall m.content,
        Event.logError ("Error detecting language: " ++ e)], Outcome.returned) := by
  simp [on_message, hch, hbot, hdet]

/-- Witness for C8: a failing detection call yields only the detection
attempt and one logged error. -/
theorem detection_error_aborts_witness :
    on_message 5 "https://hook.example" detectFailWorld sampleMsg =
      ([Event.detectCall "Bonjour le monde",
        Event.logError ("Error detecting language: " ++ "Service unavailable")],
       Outcome.returned) :=
  detection_error_aborts 5 "https://hook.example" detectFailWorld sampleMsg
    "Service unavailable" rfl rfl rfl

/-- C3: for every inbound message that reaches the translation step, if the
translation-service call fails (the DeepL client raises; every
translation-service error is a `deepl.DeepLException`), the handler aborts
before any mutation: no deletion event, no webhook send, the error is
logged, and the handler returns normally (the error is swallowed, not
surfaced to the chat). -/
theorem translation_error_aborts (tci : Int) (url : String) (w : World)
    (m : Message) (lang emsg : String) (hch : m.channelId = tci)
    (hbot : m.author.isBot = false) (hdet : w.detect = Except.ok lang)
    (hlang : lang ≠ "en")
    (htr : w.translate = Except.error (TransError.deepLException emsg)) :
    on_message tci url w m =
      ([Event.detectCall m.content, Event.translateCall m.content "EN-US",
        Event.logError ("Error translating message: " ++ emsg)],
       Outcome.returned) ∧
    Event.deleteCall ∉ (on_message tci url w m).1 ∧
    sentEnvelopes (on_message tci url w m).1 = [] := by
  have h1 : on_message tci url w m =
      ([Event.detectCall m.content, Event.translateCall m.content "EN-US",
        Event.logError ("Error translating message: " ++ emsg)],
       Outcome.returned) := by
    simp [on_message, hch, hbot, hdet, hlang, htr]
  refine ⟨h1, ?_, ?_⟩
  · rw [h1]; simp
  · rw [h1]; simp

/-- Witness for C3: a quota-exceeded DeepL error leads to one logged error,
no deletion and no webhook send. -/
theorem translation_error_aborts_witness :
    Event.deleteCall ∉ (on_message 5 "https://hook.example" quotaWorld sampleMsg).1 ∧
    sentEnvelopes (on_message 5 "https://hook.example" quotaWorld sampleMsg).1 = [] := by
  have h := translation_error_aborts 5 "https://hook.example" quotaWorld sampleMsg
    "fr" "Quota for this billing period has been exceeded." rfl rfl rfl (by decide) rfl
  exact ⟨h.2.1, h.2.2⟩

/-- C4: for every inbound message where the deletion step fails with a
permission error or because the message is already gone, the handler
aborts after the translation and attachment work but before the repost:
the translation and deletion calls happened, no webhook construction or
send is attempted, the corresponding error is logged, and the handler
returns normally (the translated text is discarded). -/
theorem deletion_error_aborts (tci : Int) (url : String) (w : World)
    (m : Message) (lang t : String) (de : DeleteError)
    (hch : m.channelId = tci) (hbot : m.author.isBot = false)
    (hdet : w.detect = Except.ok lang) (hlang : lang ≠ "en")
    (htr : w.translate = Except.ok t) (hdel : w.delete = Except.error de)
    (hde : de = DeleteError.forbidden ∨ de = DeleteError.notFound) :
    Event.translateCall m.content "EN-US" ∈ (on_message tci url w m).1 ∧
    Event.deleteCall ∈ (on_message tci url w m).1 ∧
    Event.webhookCreate url ∉ (on_message tci url w m).1 ∧
    sentEnvelopes (on_message tci url w m).1 = [] ∧
    (on_message tci url w m).2 = Outcome.returned ∧
    (de = DeleteError.forbidden →
      Event.logError "Bot lacks permission to delete the message." ∈
        (on_message tci url w m).1) ∧
    (de = DeleteError.notFound →
      Event.logError "Message not found (already deleted?)" ∈
        (on_message tci url w m).1) := by
  rcases hde with rfl | rfl <;>
    refine ⟨?_, ?_, ?_, ?_, ?_, ?_, ?_⟩ <;>
      simp [on_message, hch, hbot, hdet, hlang, htr, hdel, fetch_sent_nil,
        fetch_no_create]

/-- Witness for C4: a permission-denied deletion leaves the translation
done, the deletion attempted, no webhook call, and the permission log
line. -/
theorem deletion_error_aborts_witness :
    Event.webhookCreate "https://hook.example" ∉
      (on_message 5 "https://hook.example" forbiddenWorld sampleMsg).1 ∧
    sentEnvelopes (on_message 5 "https://hook.example" forbiddenWorld sampleMsg).1 = [] ∧
    Event.logError "Bot lacks permission to delete the message." ∈
      (on_message 5 "https://hook.example" forbiddenWorld sampleMsg).1 := by
  have h := deletion_error_aborts 5 "https://hook.example" forbiddenWorld sampleMsg
    "fr" "Hello world" DeleteError.forbidden rfl rfl rfl (by decide) rfl rfl
    (Or.inl rfl)
  exact ⟨h.2.2.1, h.2.2.2.1, h.2.2.2.2.2.1 rfl⟩

/-- C9: at startup, if any of the four required configuration values is
missing, or the target channel identifier is set but is not a valid
integer, the `exit()` on line 31 runs: the process exits before any
message handling. -/
theorem startup_missing_config_exits (env : Env)
    (h : env.discordToken = none ∨ env.webhookUrl = none ∨
      env.deeplApiKey = none ∨ env.targetChannelId = none ∨
      ∃ s, env.targetChannelId = some s ∧ pythonInt s = none) :
    startupExits env = true := by
  rcases h with h | h | h | h | ⟨s, hs, hp⟩
  · simp [startupExits, truthy, h]
  · simp [startupExits, truthy, h]
  · simp [startupExits, truthy, h]
  · simp [startupExits, computeTargetChannelId, h]
  · simp [startupExits, computeTargetChannelId, hs, hp]

/-- Witness for C9: a missing `DISCORD_TOKEN` makes the startup check
exit. -/
theorem startup_missing_config_exits_witness :
    startupExits ⟨none, some "https://hook.example", some "key", some "5"⟩ = true :=
  startup_missing_config_exits
    ⟨none, some "https://hook.example", some "key", some "5"⟩ (Or.inl rfl)

/-- C10: a target channel identifier that evaluates to the integer 0 —
supplied explicitly as "0", left unset (defaulted to 0), or substituted
after an invalid-integer parse — is treated exactly like a missing value:
the startup check exits, so channel identifier zero can never be
configured. -/
theorem zero_channel_id_exits (env : Env)
    (h : env.targetChannelId = some "0" ∨ env.targetChannelId = none ∨
      ∃ s, env.targetChannelId = some s ∧ pythonInt s = none) :
    computeTargetChannelId env.targetChannelId = 0 ∧ startupExits env = true := by
  have h0 : computeTargetChannelId env.targetChannelId = 0 := by
    rcases h with h | h | ⟨s, hs, hp⟩
    · rw [h]; rfl
    · rw [h]; rfl
    · rw [hs]; simp [computeTargetChannelId, hp]
  exact ⟨h0, by simp [startupExits, h0]⟩

/-- Witness for C10: `TARGET_CHANNEL_ID="0"` with all other values present
still exits. -/
theorem zero_channel_id_exits_witness :
    computeTargetChannelId (some "0") = 0 ∧
    startupExits ⟨some "token", some "https://hook.example", some "key",
      some "0"⟩ = true :=
  zero_channel_id_exits
    ⟨some "token", some "https://hook.example", some "key", some "0"⟩
    (Or.inl rfl)

/-- C1: for every inbound message in the target channel from a non-bot
author whose detected language is not English, when detection,
translation, deletion and webhook dispatch all succeed: the deletion call
appears exactly once in the trace, and exactly one webhook payload is
sent, whose content is the translated text, a newline, the "-# [Original] "
marker and the verbatim original text; whose username is the author's
display name; whose avatar URL is the author's avatar URL when an avatar
is set and the platform default otherwise; and whose file list is exactly
the successfully fetched attachment payloads in original relative order. -/
theorem relay_success_repost (tci : Int) (url : String) (w : World)
    (m : Message) (lang t : String)
    (hch : m.channelId = tci) (hbot : m.author.isBot = false)
    (hdet : w.detect = Except.ok lang) (hlang : lang ≠ "en")
    (htr : w.translate = Except.ok t)
    (hdel : w.delete = Except.ok ()) (hwh : w.createWebhook = Except.ok ())
    (hsend : w.send = Except.ok ()) :
    ((on_message tci url w m).1).count Event.deleteCall = 1 ∧
    sentEnvelopes (on_message tci url w m).1 =
      [⟨t ++ "\n-# [Original] " ++ m.content, m.author.displayName,
        authorAvatarUrl m.author, successfulFiles w.fetch m.attachments 0⟩] ∧
    (on_message tci url w m).2 = Outcome.returned := by
  refine ⟨?_, ?_, ?_⟩ <;>
    simp [on_message, hch, hbot, hdet, hlang, htr, hdel, hwh, hsend,
      List.count_append, List.count_cons, fetch_count_delete, fetch_sent_nil,
      fetch_files_eq]

/-- Witness for C1: the spec's scenario — "Bonjour le monde" detected as
`fr`, translated to "Hello world" — is deleted once and reposted with the
annotated content under the author's name and avatar. -/
theorem relay_success_repost_witness :
    ((on_message 5 "https://hook.example" okWorld sampleMsg).1).count
        Event.deleteCall = 1 ∧
    sentEnvelopes (on_message 5 "https://hook.example" okWorld sampleMsg).1 =
      [⟨"Hello world" ++ "\n-# [Original] " ++ sampleMsg.content,
        sampleMsg.author.displayName, authorAvatarUrl sampleMsg.author,
        successfulFiles okWorld.fetch sampleMsg.attachments 0⟩] ∧
    (on_message 5 "https://hook.example" okWorld sampleMsg).2 =
      Outcome.returned :=
  relay_success_repost 5 "https://hook.example" okWorld sampleMsg "fr"
    "Hello world" rfl rfl rfl (by decide) rfl rfl rfl rfl

/-- C7: the attachment loop fetches each attachment independently: the
payload list is exactly the successfully fetched payloads in original
relative order (failures omitted, not placeholder-filled); every
attachment is fetched exactly once in order regardless of the other
outcomes (a per-attachment failure never aborts the loop); and every
failed fetch leaves its log line in the trace while the loop continues. -/
theorem attachment_transfer_behavior (f : Nat → FetchOutcome)
    (atts : List Attachment) (i : Nat) :
    (fetchAttachments f atts i).2 = successfulFiles f atts i ∧
    ((fetchAttachments f atts i).1).filter isFetchCall =
      atts.map (fun a => Event.fetchCall a.url) ∧
    ∀ (j : Nat) (hj : j < atts.length) (ev : Event),
      fetchFailureLog (f (i + j)) (atts.get ⟨j, hj⟩) = some ev →
      ev ∈ (fetchAttachments f atts i).1 :=
  ⟨fetch_files_eq f atts i, fetch_filter_fetchCall f atts i,
   fun j hj ev h => fetch_failure_logged f atts i j hj ev h⟩

/-- Witness for C7: with two attachments whose second fetch returns HTTP
404, the payload list holds only the first attachment's bytes, and the 404
is logged. -/
theorem attachment_transfer_behavior_witness :
    (fetchAttachments twoFetch [attA, attB] 0).2 = [⟨[10, 20], "a.png"⟩] ∧
    Event.logError
        "Failed to download attachment: https://cdn.example/b.png (Status: 404)" ∈
      (fetchAttachments twoFetch [attA, attB] 0).1 := by
  have h := attachment_transfer_behavior twoFetch [attA, attB] 0
  exact ⟨h.1.trans (by decide),
    h.2.2 1 (by decide)
      (Event.logError
        "Failed to download attachment: https://cdn.example/b.png (Status: 404)")
      (by decide)⟩

/-- C2: for every inbound message and every world, at most one repost
payload is constructed and sent per invocation; the trace restricted to
deletion and send events is empty, a lone (possibly failed) deletion, or a
successful deletion followed by one send — so every execution that reaches
the webhook-send step has already successfully deleted the original — and
every execution whose deletion call succeeds goes on to attempt the repost
(it reaches the webhook-construction step). -/
theorem delete_iff_repost (tci : Int) (url : String) (w : World) (m : Message) :
    (sentEnvelopes (on_message tci url w m).1).length ≤ 1 ∧
    (((on_message tci url w m).1).filter isDelOrSend = [] ∨
     ((on_message tci url w m).1).filter isDelOrSend = [Event.deleteCall] ∨
     ∃ p, ((on_message tci url w m).1).filter isDelOrSend =
         [Event.deleteCall, Event.webhookSendCall p] ∧
       w.delete = Except.ok ()) ∧
    (Event.deleteCall ∈ (on_message tci url w m).1 ∧ w.delete = Except.ok () →
      Event.webhookCreate url ∈ (on_message tci url w m).1) := by
  by_cases hch : m.channelId = tci
  · cases hbot : m.author.isBot with
    | true => simp [on_message, hch, hbot]
    | false =>
      rcases hdet : w.detect with e | lang
      · simp [on_message, hch, hbot, hdet, isDelOrSend]
      · by_cases hlang : lang = "en"
        · simp [on_message, hch, hbot, hdet, hlang, isDelOrSend]
        · rcases htr : w.translate with te | t
          · rcases te with e | e
            · simp [on_message, hch, hbot, hdet, hlang, htr, isDelOrSend]
            · simp [on_message, hch, hbot, hdet, hlang, htr, isDelOrSend]
          · rcases hdel : w.delete with de | u
            · rcases de with _ | _ | e <;>
                simp [on_message, hch, hbot, hdet, hlang, htr, hdel,
                  isDelOrSend, List.filter_append, fetch_filter_delsend,
                  fetch_sent_nil, fetch_no_delete]
            · rcases hwh : w.createWebhook with e | u2
              · simp [on_message, hch, hbot, hdet, hlang, htr, hdel, hwh,
                  isDelOrSend, List.filter_append, fetch_filter_delsend,
                  fetch_sent_nil, fetch_no_delete]
              · rcases hsend : w.send with e | u3 <;>
                  simp [on_message, hch, hbot, hdet, hlang, htr, hdel, hwh,
                    hsend, isDelOrSend, List.filter_append,
                    fetch_filter_delsend, fetch_sent_nil, fetch_no_delete]
  · simp [on_message, hch]

/-- Witness for C2: in the all-success world the deletion succeeded and
the handler went on to construct the webhook. -/
theorem delete_iff_repost_witness :
    Event.webhookCreate "https://hook.example" ∈
      (on_message 5 "https://hook.example" okWorld sampleMsg).1 :=
  (delete_iff_repost 5 "https://hook.example" okWorld sampleMsg).2.2
    ⟨by decide, rfl⟩
